import Mathlib

/-!
Shallow embedding of the data-transformation and caching core of the
Weather & Finance dashboard (files `dashboard/app.py`,
`api_client/openweathermap_client.py`).

Numbers that the Python code holds as `float` are modelled as exact
rationals (`ℚ`); the one place where IEEE special values matter — the
`pct_change` daily-return computation, where a division by a zero close
produces `inf`/`NaN` — is modelled by the type `PFloat` that tags a value
as finite, infinite (with a sign) or NaN, exactly following IEEE division
of a finite float by zero.  JSON dictionaries are modelled by structures
with `Option` fields (a `none` field is an absent key) or by association
lists; Python `dict.get(k, default)` becomes a `match` on the lookup.
External library calls (`pd.to_datetime`, `float(...)` string parsing)
are parameters of the transformation functions, returning `Option`
(`none` models the exception the Python call would raise).
-/

namespace WeatherFinance

/-! ## Weather transformer (`transform_weather_data`, app.py lines 237-261) -/

/-- The `"main"` sub-dictionary of an OpenWeatherMap response; every key
may be absent.  Temperatures are in Kelvin. -/
structure MainData where
  temp : Option ℚ
  feels_like : Option ℚ
  temp_min : Option ℚ
  temp_max : Option ℚ
  pressure : Option ℤ
  humidity : Option ℤ
deriving DecidableEq

/-- One element of the `"weather"` list: a dictionary that may carry a
`"description"`. -/
structure WeatherCond where
  description : Option String
deriving DecidableEq

/-- The `"wind"` sub-dictionary. -/
structure WindData where
  speed : Option ℚ
deriving DecidableEq

/-- A raw OpenWeatherMap JSON payload.  Each field is `none` when its key
is absent from the dictionary; `weather := some []` is the key present
with an empty list (which makes `[0]` raise in Python), while
`weather := none` is the key absent (so `.get("weather", [{}])` falls
back to the default singleton). -/
structure WeatherRaw where
  name : Option String
  weather : Option (List WeatherCond)
  main : Option MainData
  wind : Option WindData
  dt : Option ℤ
deriving DecidableEq

/-- The empty dictionary `{}`, which is falsy in Python. -/
def emptyWeatherRaw : WeatherRaw :=
  { name := none, weather := none, main := none, wind := none, dt := none }

/-- The output row of `transform_weather_data` (its one-row DataFrame). -/
structure WeatherRow where
  city : Option String
  description : Option String
  temp_c : Option ℚ
  feels_like_c : Option ℚ
  temp_min_c : Option ℚ
  temp_max_c : Option ℚ
  pressure : Option ℤ
  humidity : Option ℤ
  wind_speed : Option ℚ
  timestamp : ℤ
deriving DecidableEq

/-- `kelvin_to_celsius` from app.py line 241:
`return temp_k - 273.15 if temp_k else None`.  Python truthiness makes
this return `None` both when `temp_k` is `None` (key absent) and when it
is `0` / `0.0`. -/
def kelvin_to_celsius : Option ℚ → Option ℚ
  | none => none
  | some k => if k = 0 then none else some (k - 27315 / 100)

/-- `raw_data.get("weather", [{}])[0]`: key absent gives the default
`[{}]` whose head is the empty dictionary; key present with `[]` raises
`IndexError` (modelled as `none`); otherwise the head element. -/
def weatherHead : Option (List WeatherCond) → Option WeatherCond
  | none => some { description := none }
  | some [] => none
  | some (c :: _) => some c

/-- `transform_weather_data` (app.py lines 237-261).  `none` input models
the Python `None`; the empty dictionary is also falsy.  Inside the `try`
block the only operations that can raise on this data model are the
`[0]` index into an empty `"weather"` list and
`datetime.utcfromtimestamp(None)` when `"dt"` is absent; either
exception is caught and turned into `None`. -/
def transform_weather_data : Option WeatherRaw → Option WeatherRow
  | none => none
  | some r =>
    if r = emptyWeatherRaw then none
    else
      match weatherHead r.weather with
      | none => none
      | some c =>
        match r.dt with
        | none => none
        | some t =>
          some
            { city := r.name
              description := c.description
              temp_c := kelvin_to_celsius (r.main.bind MainData.temp)
              feels_like_c := kelvin_to_celsius (r.main.bind MainData.feels_like)
              temp_min_c := kelvin_to_celsius (r.main.bind MainData.temp_min)
              temp_max_c := kelvin_to_celsius (r.main.bind MainData.temp_max)
              pressure := r.main.bind MainData.pressure
              humidity := r.main.bind MainData.humidity
              wind_speed := r.wind.bind WindData.speed
              timestamp := t }

/-! ## Finance transformer (`transform_finance_data`, app.py lines 263-295) -/

/-- The OHLCV dictionary of one time-series entry: string keys mapping to
string values, modelled as an association list. -/
abbrev Metrics := List (String × String)

/-- A raw Alpha Vantage payload: a dictionary (association list in
insertion order) from key names to nested dictionaries.  Only the value
under the located time-series key is ever read. -/
abbrev FinanceRaw := List (String × List (String × Metrics))

/-- One row of the finance DataFrame. -/
structure PricePoint where
  symbol : String
  datetime : ℤ
  open_ : ℚ
  high : ℚ
  low : ℚ
  close : ℚ
  volume : ℤ
deriving DecidableEq

/-- Python `int(x)` on a float: truncation toward zero
(`tdiv` of the reduced numerator by the denominator). -/
def ratTrunc (q : ℚ) : ℤ := q.num.tdiv (q.den : ℤ)

/-- Containment of `pat` as a contiguous run inside a character list. -/
def strContains (pat : List Char) : List Char → Bool
  | [] => pat.isEmpty
  | c :: rest => pat.isPrefixOf (c :: rest) || strContains pat rest

/-- The substring test `"Time Series" in k`. -/
def hasTimeSeries (k : String) : Bool :=
  strContains "Time Series".toList k.toList

/-- The loop over `raw_data.keys()` (app.py lines 268-272) that picks the
first key containing `"Time Series"`, together with its value. -/
def findTSKey : FinanceRaw → Option (String × List (String × Metrics))
  | [] => none
  | (k, v) :: rest => if hasTimeSeries k then some (k, v) else findTSKey rest

/-- `float(metrics.get(key, 0))`: an absent key defaults to the integer
`0` (whose `float` is `0.0`); a present key parses the string, and a
parse failure (`ValueError`) is `none`. -/
def getNum (parseF : String → Option ℚ) (m : Metrics) (key : String) : Option ℚ :=
  match m.lookup key with
  | none => some 0
  | some s => parseF s

/-- Build one record of the loop body (app.py lines 280-288) from one
`(date-string, metrics)` entry.  `toDT` models `pd.to_datetime`, `parseF`
models `float(...)` on a string; `none` from either models the exception
that aborts the whole transformation.  Volume is `int(float(...))`. -/
def parsePoint (parseF : String → Option ℚ) (toDT : String → Option ℤ)
    (symbol : String) (e : String × Metrics) : Option PricePoint :=
  match toDT e.1, getNum parseF e.2 "1. open", getNum parseF e.2 "2. high",
      getNum parseF e.2 "3. low", getNum parseF e.2 "4. close",
      getNum parseF e.2 "5. volume" with
  | some d, some o, some h, some l, some c, some v =>
    some { symbol := symbol, datetime := d, open_ := o, high := h,
           low := l, close := c, volume := ratTrunc v }
  | _, _, _, _, _, _ => none

/-- The `records` loop: build every row in iteration order, aborting with
`none` as soon as one entry raises. -/
def mapPoints (f : String × Metrics → Option PricePoint) :
    List (String × Metrics) → Option (List PricePoint)
  | [] => some []
  | e :: rest =>
    match f e, mapPoints f rest with
    | some p, some ps => some (p :: ps)
    | _, _ => none

/-- Ordering of price points by timestamp, the key of
`df.sort_values("datetime")`. -/
def dtLE (a b : PricePoint) : Prop := a.datetime ≤ b.datetime

instance : DecidableRel dtLE := fun a b => inferInstanceAs (Decidable (a.datetime ≤ b.datetime))

instance : IsTotal PricePoint dtLE := ⟨fun a b => Int.le_total a.datetime b.datetime⟩

instance : IsTrans PricePoint dtLE := ⟨fun _ _ _ h h' => le_trans h h'⟩

/-- `transform_finance_data` (app.py lines 263-295).  The final
`df.sort_values("datetime")` sorts the records by timestamp; its tie
order is algorithm-dependent in pandas, and the model fixes a stable
sort — every claim below is settled under the spec's precondition that
timestamps are unique, where all sorts by timestamp coincide. -/
def transform_finance_data (parseF : String → Option ℚ) (toDT : String → Option ℤ)
    (raw : Option FinanceRaw) (symbol : String) : Option (List PricePoint) :=
  match raw with
  | none => none
  | some entries =>
    if entries = [] then none
    else
      match findTSKey entries with
      | none => none
      | some (_, series) =>
        match mapPoints (parsePoint parseF toDT symbol) series with
        | none => none
        | some records => some (List.insertionSort dtLE records)

/-! ## Derived metrics (app.py lines 411-413, 456-458, 784-785) -/

/-- A pandas float cell in the return computation: a finite rational, a
signed infinity, or NaN.  `pct_change` on an all-finite close column can
only produce these three shapes. -/
inductive PFloat where
  | val : ℚ → PFloat
  | inf : Bool → PFloat
  | nan : PFloat
deriving DecidableEq

/-- One `pct_change` cell from a previous and current close, following
IEEE float division: a zero previous close gives `±inf` (sign of the
current close) or `NaN` when the current close is also zero. -/
def pctChangeEntry (prev cur : ℚ) : PFloat :=
  if prev = 0 then (if cur = 0 then PFloat.nan else PFloat.inf (decide (0 < cur)))
  else PFloat.val ((cur - prev) / prev)

/-- Scalar multiplication by 100 (`* 100` on the return column);
infinities and NaN are preserved. -/
def mul100 : PFloat → PFloat
  | PFloat.val q => PFloat.val (q * 100)
  | PFloat.inf b => PFloat.inf b
  | PFloat.nan => PFloat.nan

/-- The tail of the `pct_change() * 100` column, given the previous
close. -/
def pctTail (prev : ℚ) : List ℚ → List PFloat
  | [] => []
  | c :: rest => mul100 (pctChangeEntry prev c) :: pctTail c rest

/-- `df["close"].pct_change() * 100` (app.py lines 457 and 784): NaN at
the first row, then the percentage change against the previous close. -/
def daily_return : List ℚ → List PFloat
  | [] => []
  | c :: rest => PFloat.nan :: pctTail c rest

/-- `.dropna()`: removes NaN cells only — infinities are kept. -/
def dropna (l : List PFloat) : List PFloat :=
  l.filter (fun x => x != PFloat.nan)

/-- `df["close"].rolling(window=w).mean()` (app.py lines 412-413) with
the pandas default `min_periods = w`: cell `i` is the mean of the `w`
trailing closes ending at `i` when at least `w` values are available,
and NaN (modelled `none`) otherwise. -/
def rollingMean (w : ℕ) (cs : List ℚ) : List (Option ℚ) :=
  (List.range cs.length).map fun i =>
    if w ≤ i + 1 then some (((cs.drop (i + 1 - w)).take w).sum / (w : ℚ)) else none

/-! ## Weather client cache (`openweathermap_client.py` lines 15-43) -/

/-- Python `str.lower()`, modelled characterwise (faithful on the ASCII
city names the dashboard passes). -/
def pyLower (s : String) : String := ⟨s.data.map Char.toLower⟩

/-- The cache key: `f"weather_{city.lower()}.json"` (line 17). -/
def cacheKey (city : String) : String :=
  "weather_" ++ pyLower city ++ ".json"

/-- `timedelta(minutes=10)` in seconds: the freshness window of the
file cache. -/
def fetchWeatherTTL : ℤ := 600

/-- `OpenWeatherClient.fetch_current_weather` (lines 16-43).  The cache
directory is a map from file names to `(payload, mtime)`; `now` is the
wall clock; `fetched` is the outcome of the outbound HTTP request
(`none` = `raise_for_status`/request failure).  Returns the payload (or
`none` on failure), the cache after the call, and whether the network
was hit.  A cache entry younger than the TTL is returned as-is without
fetching; otherwise the fetch runs, and only a successful fetch writes
the cache. -/
def fetch_current_weather {α : Type} (cache : String → Option (α × ℤ)) (now : ℤ)
    (fetched : Option α) (city : String) :
    Option α × (String → Option (α × ℤ)) × Bool :=
  let key := cacheKey city
  let doFetch : Option α × (String → Option (α × ℤ)) × Bool :=
    match fetched with
    | some d => (some d, fun k => if k = key then some (d, now) else cache k, true)
    | none => (none, cache, true)
  match cache key with
  | some (data, mtime) =>
    if now - mtime < fetchWeatherTTL then (some data, cache, false) else doFetch
  | none => doFetch

/-! ## Concrete example inputs (used by witnesses and counterexamples) -/

/-- A table-based model of `float(...)` string parsing, on the strings
used by the example payloads. -/
def parseFloatEx : String → Option ℚ := fun s =>
  if s = "10" then some 10 else if s = "12" then some 12 else
  if s = "9" then some 9 else if s = "11" then some 11 else
  if s = "1000" then some 1000 else
  if s = "20" then some 20 else if s = "22" then some 22 else
  if s = "19" then some 19 else if s = "21" then some 21 else
  if s = "2000" then some 2000 else
  if s = "1500.75" then some (mkRat 150075 100) else none

/-- A table-based model of `pd.to_datetime` on the example date
strings. -/
def toDatetimeEx : String → Option ℤ := fun s =>
  if s = "2024-01-01" then some 1 else
  if s = "2024-01-02" then some 2 else none

/-- A finance payload with no time-series key (an error response). -/
def financeRawErr : FinanceRaw :=
  [("Error Message", [])]

/-- A weather payload whose `"main"` dictionary carries a Kelvin
temperature of exactly `0`. -/
def weatherZeroK : WeatherRaw :=
  { name := some "L"
    weather := none
    main := some { temp := some 0, feels_like := none, temp_min := none,
                   temp_max := none, pressure := none, humidity := none }
    wind := none
    dt := some 0 }

/-- A weather payload that is missing the required `"dt"` field. -/
def weatherNoDt : WeatherRaw :=
  { name := some "L", weather := none, main := none, wind := none, dt := none }

/-- A well-formed weather payload (the spec's end-to-end example, with
temperatures as exact rationals). -/
def weatherRawEx : WeatherRaw :=
  { name := some "London"
    weather := some [{ description := some "clear sky" }]
    main := some { temp := some (mkRat 29015 100), feels_like := some 289,
                   temp_min := some 288, temp_max := some 292,
                   pressure := some 1012, humidity := some 60 }
    wind := some { speed := some (mkRat 7 2) }
    dt := some 1700000000 }

/-- An example cache with a single entry for the lowercased London key,
fetched at time `100`. -/
def cacheEx : String → Option (ℕ × ℤ) := fun k =>
  if k = cacheKey "London" then some (7, 100) else none

/-- An empty cache. -/
def cacheEmpty : String → Option (ℕ × ℤ) := fun _ => none

/-- A metrics dictionary with all five OHLCV sub-keys absent. -/
def metricsEmptyEx : Metrics := []

/-- Metrics whose volume string carries a decimal point. -/
def metricsVolEx : Metrics :=
  [("1. open", "10"), ("2. high", "12"), ("3. low", "9"),
   ("4. close", "11"), ("5. volume", "1500.75")]

/-- Metrics whose open string cannot be parsed as a number. -/
def metricsBadEx : Metrics := [("1. open", "oops")]

/-- A finance payload holding one entry with an unparseable value. -/
def financeRawBad : FinanceRaw :=
  [("Time Series (Daily)", [("2024-01-01", metricsBadEx)])]

/-! ## Helper lemmas -/

lemma kelvin_to_celsius_of_ne {k : ℚ} (hk : k ≠ 0) :
    kelvin_to_celsius (some k) = some (k - 27315 / 100) := by
  simp [kelvin_to_celsius, hk]

lemma findTSKey_eq_none {entries : FinanceRaw}
    (h : ∀ kv ∈ entries, hasTimeSeries kv.1 = false) :
    findTSKey entries = none := by
  induction entries with
  | nil => rfl
  | cons kv rest ih =>
    have hk := h kv (List.mem_cons_self _ _)
    obtain ⟨k, v⟩ := kv
    simp only [findTSKey, hk]
    simp only [Bool.false_eq_true, if_false]
    exact ih fun kv2 hkv2 => h kv2 (List.mem_cons_of_mem _ hkv2)

lemma mapPoints_eq_none {f : String × Metrics → Option PricePoint}
    {l : List (String × Metrics)} {e : String × Metrics}
    (he : e ∈ l) (hf : f e = none) :
    mapPoints f l = none := by
  induction l with
  | nil => cases he
  | cons a rest ih =>
    rcases List.mem_cons.mp he with rfl | hmem
    · simp [mapPoints, hf]
    · rw [mapPoints, ih hmem]
      cases f a <;> rfl

lemma transform_weather_eq {r : WeatherRaw} {c : WeatherCond} {t : ℤ}
    (hne : r ≠ emptyWeatherRaw) (hc : weatherHead r.weather = some c)
    (hdt : r.dt = some t) :
    transform_weather_data (some r)
      = some
          { city := r.name
            description := c.description
            temp_c := kelvin_to_celsius (r.main.bind MainData.temp)
            feels_like_c := kelvin_to_celsius (r.main.bind MainData.feels_like)
            temp_min_c := kelvin_to_celsius (r.main.bind MainData.temp_min)
            temp_max_c := kelvin_to_celsius (r.main.bind MainData.temp_max)
            pressure := r.main.bind MainData.pressure
            humidity := r.main.bind MainData.humidity
            wind_speed := r.wind.bind WindData.speed
            timestamp := t } := by
  simp only [transform_weather_data, if_neg hne, hc, hdt]

lemma pctTail_eq_map {prev : ℚ} {cs : List ℚ} (hp : prev ≠ 0)
    (h : ∀ c ∈ cs, c ≠ 0) :
    pctTail prev cs
      = ((prev :: cs).zip cs).map (fun p => PFloat.val ((p.2 - p.1) / p.1 * 100)) := by
  induction cs generalizing prev with
  | nil => rfl
  | cons c rest ih =>
    have hc : c ≠ 0 := h c (List.mem_cons_self _ _)
    have htail := ih hc (fun x hx => h x (List.mem_cons_of_mem _ hx))
    simp only [pctTail, pctChangeEntry, if_neg hp, mul100, List.zip_cons_cons,
      List.map_cons, htail]

lemma dropna_nan_cons (l : List PFloat) :
    dropna (PFloat.nan :: l) = dropna l := by
  simp [dropna]

lemma dropna_eq_self_of_vals {β : Type} (l : List β) (g : β → ℚ) :
    dropna (l.map (fun p => PFloat.val (g p))) = l.map (fun p => PFloat.val (g p)) := by
  rw [dropna, List.filter_eq_self]
  intro a ha
  obtain ⟨p, _, rfl⟩ := List.mem_map.mp ha
  rfl

lemma parsePoint_eq_none_of_getNum {parseF : String → Option ℚ}
    {toDT : String → Option ℤ} {symbol : String} {e : String × Metrics}
    {key : String}
    (hkey : key ∈ ["1. open", "2. high", "3. low", "4. close", "5. volume"])
    (hg : getNum parseF e.2 key = none) :
    parsePoint parseF toDT symbol e = none := by
  fin_cases hkey <;>
  · unfold parsePoint
    cases h1 : toDT e.1 <;> cases h2 : getNum parseF e.2 "1. open" <;>
      cases h3 : getNum parseF e.2 "2. high" <;> cases h4 : getNum parseF e.2 "3. low" <;>
        cases h5 : getNum parseF e.2 "4. close" <;>
          cases h6 : getNum parseF e.2 "5. volume" <;> simp_all

lemma countP_range_ge {w : ℕ} (hw : 1 ≤ w) (n : ℕ) :
    (List.range n).countP (fun i => decide (w ≤ i + 1)) = n + 1 - w := by
  induction n with
  | zero => simp; omega
  | succ n ih =>
    rw [List.range_succ, List.countP_append, ih]
    by_cases hn : w ≤ n + 1
    · simp [List.countP_cons, hn]
      omega
    · simp [List.countP_cons, hn]
      omega

/-! ## Claim theorems -/

/-- C5: for every finance JSON payload with no key whose name contains
the substring "Time Series", `transform_finance_data` returns null. -/
theorem C5_no_time_series_key_returns_null
    (parseF : String → Option ℚ) (toDT : String → Option ℤ)
    (entries : FinanceRaw) (symbol : String)
    (h : ∀ kv ∈ entries, hasTimeSeries kv.1 = false) :
    transform_finance_data parseF toDT (some entries) symbol = none := by
  rcases entries with _ | ⟨kv, rest⟩
  · rfl
  · simp [transform_finance_data, findTSKey_eq_none h]

/-- Witness for C5: an `"Error Message"` payload has no time-series key
and is transformed to null. -/
theorem C5_witness :
    (∀ kv ∈ financeRawErr, hasTimeSeries kv.1 = false) ∧
    transform_finance_data parseFloatEx toDatetimeEx (some financeRawErr) "AAPL" = none :=
  ⟨by decide, C5_no_time_series_key_returns_null _ _ _ _ (by decide)⟩

/-- C6: `transform_weather_data` returns null on a null input, on an
empty JSON object, and on any payload structurally missing a required
field (the `"dt"` timestamp, or a `"weather"` key present with an empty
list, which makes the `[0]` index raise) — never a fault. -/
theorem C6_weather_null_handling :
    transform_weather_data none = none ∧
    transform_weather_data (some emptyWeatherRaw) = none ∧
    (∀ r : WeatherRaw, r.dt = none → transform_weather_data (some r) = none) ∧
    (∀ r : WeatherRaw, r.weather = some [] → transform_weather_data (some r) = none) := by
  refine ⟨rfl, by decide, ?_, ?_⟩
  · intro r h
    by_cases he : r = emptyWeatherRaw
    · simp [transform_weather_data, he]
    · simp only [transform_weather_data, if_neg he]
      cases hc : weatherHead r.weather with
      | none => simp [hc]
      | some c => simp [hc, h]
  · intro r h
    by_cases he : r = emptyWeatherRaw
    · simp [transform_weather_data, he]
    · simp only [transform_weather_data, if_neg he, h]
      rfl

/-- Witness for C6: a payload with `"dt"` absent transforms to null. -/
theorem C6_witness : transform_weather_data (some weatherNoDt) = none :=
  C6_weather_null_handling.2.2.1 weatherNoDt rfl

/-- Counterexample for C3: a payload whose `"main.temp"` key is present
with the Kelvin value `0` is transformed to a null `temp_c`, not to
`0 - 273.15`; Python truthiness (`if temp_k`) treats a present zero like
a missing key. -/
theorem C3_counterexample :
    weatherZeroK.main.bind MainData.temp = some 0 ∧
    (transform_weather_data (some weatherZeroK)).map WeatherRow.temp_c = some none ∧
    (transform_weather_data (some weatherZeroK)).map WeatherRow.temp_c
      ≠ some (some (mkRat (-27315) 100)) := by
  decide

/-- C3 (amended): for every transformable weather payload and each of
the four Kelvin fields, a field present with a nonzero value maps to
exactly `kelvin - 273.15` Celsius, a field present with the value
exactly `0` maps to null, and a missing field maps to null, not
zero. -/
theorem C3_kelvin_conversion (r : WeatherRaw) (t : ℤ)
    (hw : r.weather ≠ some []) (hdt : r.dt = some t) :
    ∃ row : WeatherRow, transform_weather_data (some r) = some row ∧
      (∀ k : ℚ, r.main.bind MainData.temp = some k → k ≠ 0 →
          row.temp_c = some (k - 27315 / 100)) ∧
      (r.main.bind MainData.temp = some 0 → row.temp_c = none) ∧
      (r.main.bind MainData.temp = none → row.temp_c = none) ∧
      (∀ k : ℚ, r.main.bind MainData.feels_like = some k → k ≠ 0 →
          row.feels_like_c = some (k - 27315 / 100)) ∧
      (r.main.bind MainData.feels_like = some 0 → row.feels_like_c = none) ∧
      (r.main.bind MainData.feels_like = none → row.feels_like_c = none) ∧
      (∀ k : ℚ, r.main.bind MainData.temp_min = some k → k ≠ 0 →
          row.temp_min_c = some (k - 27315 / 100)) ∧
      (r.main.bind MainData.temp_min = some 0 → row.temp_min_c = none) ∧
      (r.main.bind MainData.temp_min = none → row.temp_min_c = none) ∧
      (∀ k : ℚ, r.main.bind MainData.temp_max = some k → k ≠ 0 →
          row.temp_max_c = some (k - 27315 / 100)) ∧
      (r.main.bind MainData.temp_max = some 0 → row.temp_max_c = none) ∧
      (r.main.bind MainData.temp_max = none → row.temp_max_c = none) := by
  have hne : r ≠ emptyWeatherRaw := by
    intro he; rw [he] at hdt; exact Option.noConfusion hdt
  obtain ⟨c, hc⟩ : ∃ c, weatherHead r.weather = some c := by
    cases hwe : r.weather with
    | none => exact ⟨{ description := none }, rfl⟩
    | some l =>
      cases l with
      | nil => exact absurd hwe hw
      | cons c cs => exact ⟨c, rfl⟩
  have hzero : kelvin_to_celsius (some 0) = none := by
    simp [kelvin_to_celsius]
  refine ⟨_, transform_weather_eq hne hc hdt,
    ?_, ?_, ?_, ?_, ?_, ?_, ?_, ?_, ?_, ?_, ?_, ?_⟩
  · intro k hk hk0
    show kelvin_to_celsius (r.main.bind MainData.temp) = _
    rw [hk]; exact kelvin_to_celsius_of_ne hk0
  · intro hk
    show kelvin_to_celsius (r.main.bind MainData.temp) = none
    rw [hk]; exact hzero
  · intro hm
    show kelvin_to_celsius (r.main.bind MainData.temp) = none
    rw [hm]; rfl
  · intro k hk hk0
    show kelvin_to_celsius (r.main.bind MainData.feels_like) = _
    rw [hk]; exact kelvin_to_celsius_of_ne hk0
  · intro hk
    show kelvin_to_celsius (r.main.bind MainData.feels_like) = none
    rw [hk]; exact hzero
  · intro hm
    show kelvin_to_celsius (r.main.bind MainData.feels_like) = none
    rw [hm]; rfl
  · intro k hk hk0
    show kelvin_to_celsius (r.main.bind MainData.temp_min) = _
    rw [hk]; exact kelvin_to_celsius_of_ne hk0
  · intro hk
    show kelvin_to_celsius (r.main.bind MainData.temp_min) = none
    rw [hk]; exact hzero
  · intro hm
    show kelvin_to_celsius (r.main.bind MainData.temp_min) = none
    rw [hm]; rfl
  · intro k hk hk0
    show kelvin_to_celsius (r.main.bind MainData.temp_max) = _
    rw [hk]; exact kelvin_to_celsius_of_ne hk0
  · intro hk
    show kelvin_to_celsius (r.main.bind MainData.temp_max) = none
    rw [hk]; exact hzero
  · intro hm
    show kelvin_to_celsius (r.main.bind MainData.temp_max) = none
    rw [hm]; rfl

/-- Witness for C3 (amended): the spec's end-to-end London example. -/
theorem C3_witness :
    ∃ row : WeatherRow, transform_weather_data (some weatherRawEx) = some row ∧
      (∀ k : ℚ, weatherRawEx.main.bind MainData.temp = some k → k ≠ 0 →
          row.temp_c = some (k - 27315 / 100)) ∧
      (weatherRawEx.main.bind MainData.temp = some 0 → row.temp_c = none) ∧
      (weatherRawEx.main.bind MainData.temp = none → row.temp_c = none) ∧
      (∀ k : ℚ, weatherRawEx.main.bind MainData.feels_like = some k → k ≠ 0 →
          row.feels_like_c = some (k - 27315 / 100)) ∧
      (weatherRawEx.main.bind MainData.feels_like = some 0 → row.feels_like_c = none) ∧
      (weatherRawEx.main.bind MainData.feels_like = none → row.feels_like_c = none) ∧
      (∀ k : ℚ, weatherRawEx.main.bind MainData.temp_min = some k → k ≠ 0 →
          row.temp_min_c = some (k - 27315 / 100)) ∧
      (weatherRawEx.main.bind MainData.temp_min = some 0 → row.temp_min_c = none) ∧
      (weatherRawEx.main.bind MainData.temp_min = none → row.temp_min_c = none) ∧
      (∀ k : ℚ, weatherRawEx.main.bind MainData.temp_max = some k → k ≠ 0 →
          row.temp_max_c = some (k - 27315 / 100)) ∧
      (weatherRawEx.main.bind MainData.temp_max = some 0 → row.temp_max_c = none) ∧
      (weatherRawEx.main.bind MainData.temp_max = none → row.temp_max_c = none) :=
  C3_kelvin_conversion weatherRawEx 1700000000 (by decide) rfl

/-- C7: a missing OHLCV sub-key defaults that numeric field to `0`
without failing the point, and the volume field is the string parsed as
a float and truncated to an integer. -/
theorem C7_missing_subkey_defaults
    (parseF : String → Option ℚ) (toDT : String → Option ℤ)
    (symbol dtStr : String) (d : ℤ) (m : Metrics)
    (hdt : toDT dtStr = some d) :
    (∀ key, m.lookup key = none → getNum parseF m key = some 0) ∧
    ((m.lookup "1. open" = none ∧ m.lookup "2. high" = none ∧
      m.lookup "3. low" = none ∧ m.lookup "4. close" = none ∧
      m.lookup "5. volume" = none) →
      parsePoint parseF toDT symbol (dtStr, m)
        = some { symbol := symbol, datetime := d, open_ := 0, high := 0,
                 low := 0, close := 0, volume := 0 }) ∧
    (∀ o hi lo cl v s, getNum parseF m "1. open" = some o →
      getNum parseF m "2. high" = some hi → getNum parseF m "3. low" = some lo →
      getNum parseF m "4. close" = some cl → m.lookup "5. volume" = some s →
      parseF s = some v →
      parsePoint parseF toDT symbol (dtStr, m)
        = some { symbol := symbol, datetime := d, open_ := o, high := hi,
                 low := lo, close := cl, volume := ratTrunc v }) := by
  have g0 : ∀ key, m.lookup key = none → getNum parseF m key = some 0 := by
    intro key hk; simp [getNum, hk]
  refine ⟨g0, ?_, ?_⟩
  · rintro ⟨h1, h2, h3, h4, h5⟩
    simp only [parsePoint, g0 _ h1, g0 _ h2, g0 _ h3, g0 _ h4, g0 _ h5, hdt]
    have hz : ratTrunc 0 = 0 := by decide
    simp [hz]
  · intro o hi lo cl v s ho hh hl hc hs hv
    have hgv : getNum parseF m "5. volume" = some v := by simp [getNum, hs, hv]
    simp only [parsePoint, ho, hh, hl, hc, hgv, hdt]

/-- Witness for C7: an entry with every sub-key absent becomes the
all-zero point, and a `"1500.75"` volume is parsed and truncated. -/
theorem C7_witness :
    parsePoint parseFloatEx toDatetimeEx "AAPL" ("2024-01-01", metricsEmptyEx)
      = some { symbol := "AAPL", datetime := 1, open_ := 0, high := 0,
               low := 0, close := 0, volume := 0 } ∧
    parsePoint parseFloatEx toDatetimeEx "AAPL" ("2024-01-01", metricsVolEx)
      = some { symbol := "AAPL", datetime := 1, open_ := 10, high := 12,
               low := 9, close := 11, volume := ratTrunc (mkRat 150075 100) } :=
  ⟨(C7_missing_subkey_defaults parseFloatEx toDatetimeEx "AAPL" "2024-01-01" 1
      metricsEmptyEx (by decide)).2.1 (by decide),
   (C7_missing_subkey_defaults parseFloatEx toDatetimeEx "AAPL" "2024-01-01" 1
      metricsVolEx (by decide)).2.2 10 12 9 11 (mkRat 150075 100) "1500.75"
      (by decide) (by decide) (by decide) (by decide) (by decide) (by decide)⟩

/-- C10: when any entry of the located time series has a present OHLCV
sub-key whose string cannot be parsed as a number, the whole
transformation returns null — the point is not skipped or
zero-filled. -/
theorem C10_unparseable_value_nullifies_series
    (parseF : String → Option ℚ) (toDT : String → Option ℤ)
    (entries : FinanceRaw) (symbol k : String)
    (series : List (String × Metrics)) (e : String × Metrics) (key s : String)
    (hfind : findTSKey entries = some (k, series))
    (he : e ∈ series)
    (hkey : key ∈ ["1. open", "2. high", "3. low", "4. close", "5. volume"])
    (hs : e.2.lookup key = some s)
    (hbad : parseF s = none) :
    transform_finance_data parseF toDT (some entries) symbol = none := by
  have hg : getNum parseF e.2 key = none := by simp [getNum, hs, hbad]
  have hpt : parsePoint parseF toDT symbol e = none :=
    parsePoint_eq_none_of_getNum hkey hg
  have hm := mapPoints_eq_none he hpt
  have hne : entries ≠ [] := by rintro rfl; simp [findTSKey] at hfind
  simp [transform_finance_data, if_neg hne, hfind, hm]

/-- Witness for C10: a series whose single entry has an unparseable
`"1. open"` string transforms to null. -/
theorem C10_witness :
    transform_finance_data parseFloatEx toDatetimeEx (some financeRawBad) "AAPL" = none :=
  C10_unparseable_value_nullifies_series parseFloatEx toDatetimeEx financeRawBad "AAPL"
    "Time Series (Daily)" [("2024-01-01", metricsBadEx)] ("2024-01-01", metricsBadEx)
    "1. open" "oops" (by decide) (by decide) (by decide) (by decide) (by decide)

/-- Counterexample for C2: on the close series `[0, 1]` the return at
index 1 — where the previous close is exactly 0 — is positive infinity,
which `dropna` keeps; the code yields an infinite value there, not an
undefined one as the claim states. -/
theorem C2_counterexample :
    (daily_return [0, 1])[1]? = some (PFloat.inf true) ∧
    dropna (daily_return [0, 1]) = [PFloat.inf true] := by
  decide

/-- C2 (amended): for an n-point price series whose closes are all
nonzero, the daily-return series has exactly n-1 values, each equal to
`(close[i] - close[i-1]) / close[i-1] * 100`; the return at the first
point is NaN (dropped); and where a previous close is exactly 0 with a
nonzero current close the return is infinite (not undefined). -/
theorem C2_daily_return (cs : List ℚ) (h : ∀ c ∈ cs, c ≠ 0) :
    dropna (daily_return cs)
      = (cs.zip cs.tail).map (fun p => PFloat.val ((p.2 - p.1) / p.1 * 100)) ∧
    (dropna (daily_return cs)).length = cs.length - 1 ∧
    (cs ≠ [] → (daily_return cs).head? = some PFloat.nan) ∧
    (∀ cur : ℚ, cur ≠ 0 →
      mul100 (pctChangeEntry 0 cur) = PFloat.inf (decide (0 < cur))) := by
  have hmap : dropna (daily_return cs)
      = (cs.zip cs.tail).map (fun p => PFloat.val ((p.2 - p.1) / p.1 * 100)) := by
    cases cs with
    | nil => rfl
    | cons c rest =>
      have hc : c ≠ 0 := h c (List.mem_cons_self _ _)
      rw [daily_return, dropna_nan_cons,
        pctTail_eq_map hc (fun x hx => h x (List.mem_cons_of_mem _ hx))]
      exact dropna_eq_self_of_vals ((c :: rest).zip rest)
        (fun p => (p.2 - p.1) / p.1 * 100)
  refine ⟨hmap, ?_, ?_, ?_⟩
  · rw [hmap, List.length_map, List.length_zip]
    cases cs with
    | nil => rfl
    | cons c rest => simp [List.length_cons]
  · intro hne
    cases cs with
    | nil => exact absurd rfl hne
    | cons c rest => rfl
  · intro cur hcur
    simp [pctChangeEntry, mul100, hcur]

/-- Witness for C2 (amended): the all-nonzero series `[1, 2, 4]`. -/
theorem C2_witness :
    (∀ c ∈ ([1, 2, 4] : List ℚ), c ≠ 0) ∧
    (dropna (daily_return [1, 2, 4])
        = (([1, 2, 4] : List ℚ).zip ([1, 2, 4] : List ℚ).tail).map
            (fun p => PFloat.val ((p.2 - p.1) / p.1 * 100)) ∧
      (dropna (daily_return [1, 2, 4])).length = ([1, 2, 4] : List ℚ).length - 1 ∧
      (([1, 2, 4] : List ℚ) ≠ [] → (daily_return [1, 2, 4]).head? = some PFloat.nan) ∧
      (∀ cur : ℚ, cur ≠ 0 →
        mul100 (pctChangeEntry 0 cur) = PFloat.inf (decide (0 < cur)))) :=
  ⟨by decide, C2_daily_return [1, 2, 4] (by decide)⟩

/-- C4: the rolling mean with window `w ≥ 1` over an n-point close
series is all-undefined when `n < w`; in general it is defined at
exactly `n + 1 - w` indices (that is `n - w + 1` when `n ≥ w`), namely
every index `i ≥ w - 1`, where it equals the mean of the `w` trailing
closes ending at `i`; the first `w - 1` indices are undefined. -/
theorem C4_rolling_mean (w : ℕ) (cs : List ℚ) (hw : 1 ≤ w) :
    (cs.length < w → ∀ x ∈ rollingMean w cs, x = none) ∧
    (rollingMean w cs).countP (fun x => Option.isSome x) = cs.length + 1 - w ∧
    (∀ i : ℕ, i < cs.length → w ≤ i + 1 →
      (rollingMean w cs)[i]? = some (some (((cs.drop (i + 1 - w)).take w).sum / (w : ℚ)))) ∧
    (∀ i : ℕ, i < cs.length → i + 1 < w → (rollingMean w cs)[i]? = some none) := by
  refine ⟨?_, ?_, ?_, ?_⟩
  · intro hn x hx
    rw [rollingMean] at hx
    obtain ⟨i, hi, rfl⟩ := List.mem_map.mp hx
    have hi2 : i < cs.length := List.mem_range.mp hi
    rw [if_neg (by omega)]
  · rw [rollingMean, List.countP_map]
    have hfun : ((fun x => Option.isSome x) ∘ fun i =>
        if w ≤ i + 1 then some (((cs.drop (i + 1 - w)).take w).sum / (w : ℚ)) else none)
        = fun i => decide (w ≤ i + 1) := by
      funext i
      by_cases hi : w ≤ i + 1 <;> simp [hi]
    rw [hfun, countP_range_ge hw]
  · intro i hi hwi
    rw [rollingMean, List.getElem?_map, List.getElem?_range hi]
    simp [hwi]
  · intro i hi hwi
    rw [rollingMean, List.getElem?_map, List.getElem?_range hi]
    simp [show ¬ w ≤ i + 1 by omega]

/-- Witness for C4: window 2 over a 3-point series. -/
theorem C4_witness :
    (([1, 2, 3] : List ℚ).length < 2 → ∀ x ∈ rollingMean 2 [1, 2, 3], x = none) ∧
    (rollingMean 2 [1, 2, 3]).countP (fun x => Option.isSome x) = ([1, 2, 3] : List ℚ).length + 1 - 2 ∧
    (∀ i : ℕ, i < ([1, 2, 3] : List ℚ).length → 2 ≤ i + 1 →
      (rollingMean 2 [1, 2, 3])[i]? =
        some (some (((([1, 2, 3] : List ℚ).drop (i + 1 - 2)).take 2).sum / ((2 : ℕ) : ℚ)))) ∧
    (∀ i : ℕ, i < ([1, 2, 3] : List ℚ).length → i + 1 < 2 →
      (rollingMean 2 [1, 2, 3])[i]? = some none) :=
  C4_rolling_mean 2 [1, 2, 3] (by decide)

/-- C8: a cache entry fetched less than the TTL ago is returned without
invoking the network; with no valid entry the fetch runs, a failed
fetch propagates null and leaves the cache unchanged, and a successful
fetch stores the new entry under the key at the current time. -/
theorem C8_cache_contract {α : Type} (cache : String → Option (α × ℤ)) (now : ℤ)
    (fetched : Option α) (city : String) :
    (∀ p : α, ∀ t : ℤ, cache (cacheKey city) = some (p, t) →
      now - t < fetchWeatherTTL →
      fetch_current_weather cache now fetched city = (some p, cache, false)) ∧
    (∀ p : α, ∀ t : ℤ, cache (cacheKey city) = some (p, t) →
      ¬ now - t < fetchWeatherTTL →
      (fetch_current_weather cache now fetched city).2.2 = true) ∧
    (cache (cacheKey city) = none →
      (fetch_current_weather cache now fetched city).2.2 = true) ∧
    (fetched = none →
      (¬ ∃ p t, cache (cacheKey city) = some (p, t) ∧ now - t < fetchWeatherTTL) →
      fetch_current_weather cache now fetched city = (none, cache, true)) ∧
    (∀ d : α, fetched = some d → cache (cacheKey city) = none →
      fetch_current_weather cache now fetched city
        = (some d, fun k2 => if k2 = cacheKey city then some (d, now) else cache k2, true)) := by
  refine ⟨?_, ?_, ?_, ?_, ?_⟩
  · intro p t hc hf
    simp [fetch_current_weather, hc, hf]
  · intro p t hc hf
    cases fetched <;> simp [fetch_current_weather, hc, hf]
  · intro hc
    cases fetched <;> simp [fetch_current_weather, hc]
  · intro hf hvalid
    subst hf
    cases hc : cache (cacheKey city) with
    | none => simp [fetch_current_weather, hc]
    | some pt =>
      obtain ⟨p, t⟩ := pt
      have hstale : ¬ now - t < fetchWeatherTTL := fun hfresh => hvalid ⟨p, t, hc, hfresh⟩
      simp [fetch_current_weather, hc, hstale]
  · intro d hf hc
    subst hf
    simp [fetch_current_weather, hc]

/-- Witness for C8: a hit at age 299s under the 600s TTL returns the
cached payload without fetching; a failed fetch on an empty cache
propagates null and leaves the cache empty. -/
theorem C8_witness :
    fetch_current_weather cacheEx 399 (some 9) "London" = (some 7, cacheEx, false) ∧
    fetch_current_weather cacheEmpty 399 (none : Option ℕ) "London" = (none, cacheEmpty, true) :=
  ⟨(C8_cache_contract cacheEx 399 (some 9) "London").1 7 100 (by decide) (by decide),
   (C8_cache_contract cacheEmpty 399 (none : Option ℕ) "London").2.2.2.1 rfl
     (by rintro ⟨p, t, hc, _⟩; simp [cacheEmpty] at hc)⟩

/-- C9: two city strings equal up to letter case derive the same cache
key, so a fresh entry stored for one city string is returned for the
other without invoking the fetch function. -/
theorem C9_cache_key_case_insensitive {α : Type} (city1 city2 : String)
    (h : pyLower city1 = pyLower city2)
    (cache : String → Option (α × ℤ)) (hmiss : cache (cacheKey city1) = none)
    (d : α) (fetched2 : Option α) (t now : ℤ)
    (hfresh : now - t < fetchWeatherTTL) :
    cacheKey city1 = cacheKey city2 ∧
    fetch_current_weather (fetch_current_weather cache t (some d) city1).2.1
        now fetched2 city2
      = (some d, (fetch_current_weather cache t (some d) city1).2.1, false) := by
  have hkey : cacheKey city1 = cacheKey city2 := by
    unfold cacheKey; rw [h]
  have h1 : (fetch_current_weather cache t (some d) city1).2.1
      = fun k2 => if k2 = cacheKey city1 then some (d, t) else cache k2 := by
    simp [fetch_current_weather, hmiss]
  refine ⟨hkey, ?_⟩
  rw [h1]
  have h2 : (fun k2 => if k2 = cacheKey city1 then some (d, t) else cache k2)
      (cacheKey city2) = some (d, t) := by
    simp [← hkey]
  simp [fetch_current_weather, h2, hfresh]

/-- Witness for C9: `"London"` and `"LONDON"` share one cache entry. -/
theorem C9_witness :
    cacheKey "London" = cacheKey "LONDON" ∧
    fetch_current_weather (fetch_current_weather cacheEmpty 100 (some 7) "London").2.1
        399 (none : Option ℕ) "LONDON"
      = (some 7, (fetch_current_weather cacheEmpty 100 (some 7) "London").2.1, false) :=
  C9_cache_key_case_insensitive "London" "LONDON" (by decide) cacheEmpty rfl
    7 none 100 399 (by decide)

end WeatherFinance
